import Mathlib

/-!
# Verification of the ffi-toolkit cross-boundary value-passing protocol

Shallow embedding of the three source files of the repository:

* `src/string.rs` — string marshalling (`string_to_c_char`, `c_char_to_string`).
  Rust `String`/`&str` and C buffers are modelled at the byte level as
  `List Nat`.  `CString::new` fails (unwrap panics, i.e. the process aborts)
  exactly when the input contains an interior null byte, hence the Lean
  `string_to_c_char` returns `Option`, `none` modelling the abort.
  `CStr::to_str` validates UTF-8 and `unwrap_or("")` falls back to the
  empty string; `validUtf8` below implements the UTF-8 validation algorithm
  used by `str::from_utf8` byte for byte.

* `src/result.rs` — the `ExternResult`/`ExternError` envelope and its
  constructors.  Heap allocation (`Box::into_raw`) is modelled with an
  explicit allocator state `Heap`; pointers are naturals, `0` is the null
  pointer, and fresh allocations always receive positive addresses.

* `src/memory.rs` — the release primitives (`destroy`, `destroy_raw_uuid`,
  `destroy_c_char`, and the `define_destructor`-generated
  `extern_result_destroy`).  Each one unconditionally reconstructs a
  `Box`/`CString` from the raw handle; `Box::from_raw`/`CString::from_raw`
  demand a non-null pointer previously produced by the matching `into_raw`,
  so the model returns `Option Heap`, `none` modelling undefined behavior.
-/

/-- One byte of a buffer (values `< 256`; the bound is irrelevant to the
claims, so bytes are plain naturals). -/
abbrev Byte := Nat

/-- Whether `b` is a UTF-8 continuation byte (`0x80 ≤ b ≤ 0xBF`). -/
def contByte (b : Byte) : Bool := 0x80 ≤ b && b ≤ 0xBF

/-- UTF-8 validity of a byte sequence, the validation performed by Rust's
`str::from_utf8` (the check behind `CStr::to_str` in `c_char_to_string`). -/
def validUtf8 : List Byte → Bool
  | [] => true
  | b :: rest =>
    if b < 0x80 then validUtf8 rest
    else if b < 0xC2 then false
    else if b ≤ 0xDF then
      match rest with
      | c :: r => contByte c && validUtf8 r
      | [] => false
    else if b ≤ 0xEF then
      match rest with
      | c :: d :: r =>
        (if b = 0xE0 then decide (0xA0 ≤ c) && decide (c ≤ 0xBF)
         else if b = 0xED then decide (0x80 ≤ c) && decide (c ≤ 0x9F)
         else contByte c) && contByte d && validUtf8 r
      | _ => false
    else if b ≤ 0xF4 then
      match rest with
      | c :: d :: e :: r =>
        (if b = 0xF0 then decide (0x90 ≤ c) && decide (c ≤ 0xBF)
         else if b = 0xF4 then decide (0x80 ≤ c) && decide (c ≤ 0x8F)
         else contByte c) && contByte d && contByte e && validUtf8 r
      | _ => false
    else false

/-- `CStr::from_ptr` reads the pointed-to buffer up to (excluding) the first
null byte. -/
def takeUntilNull : List Byte → List Byte
  | [] => []
  | b :: r => if b = 0 then [] else b :: takeUntilNull r

/-- `string_to_c_char` (src/string.rs): `CString::new(s).unwrap().into_raw()`.
`CString::new` rejects byte strings containing an interior null byte; the
`unwrap` then panics (modelled by `none`).  Otherwise the produced buffer is
the input bytes followed by a single terminating null byte. -/
def string_to_c_char (s : List Byte) : Option (List Byte) :=
  if 0 ∈ s then none else some (s ++ [0])

/-- `c_char_to_string` (src/string.rs): `CStr::from_ptr` then
`to_str().unwrap_or("")` — read up to the null terminator, return the bytes
if they are valid UTF-8 and the empty string otherwise.  The returned `&str`
is represented by its bytes. -/
def c_char_to_string (buf : List Byte) : List Byte :=
  let b := takeUntilNull buf
  if validUtf8 b then b else []

/-- Reading a null-terminated buffer `s ++ [0]` back stops exactly at the
terminator when `s` itself has no null byte. -/
theorem takeUntilNull_append_nullByte (s : List Byte) (hs : 0 ∉ s) :
    takeUntilNull (s ++ [0]) = s := by
  induction s with
  | nil => simp [takeUntilNull]
  | cons b r ih =>
    have hb : b ≠ 0 := fun h => hs (by simp [h])
    have hr : 0 ∉ r := fun h => hs (List.mem_cons_of_mem _ h)
    simp [takeUntilNull, hb, ih hr]

/-- C4: for every valid UTF-8 byte string `s` without embedded null bytes,
marshalling `s` to a foreign buffer and back is the identity:
`c_char_to_string (string_to_c_char s) = s`. -/
theorem c4_string_round_trip (s : List Byte) (hn : 0 ∉ s)
    (hv : validUtf8 s = true) :
    ∃ buf, string_to_c_char s = some buf ∧ c_char_to_string buf = s := by
  refine ⟨s ++ [0], ?_, ?_⟩
  · simp [string_to_c_char, hn]
  · simp [c_char_to_string, takeUntilNull_append_nullByte s hn, hv]

/-- Witness for C4 at the concrete string "hi" (bytes `[104, 105]`). -/
theorem c4_string_round_trip_witness :
    (0 : Byte) ∉ [104, 105] ∧ validUtf8 [104, 105] = true ∧
      ∃ buf, string_to_c_char [104, 105] = some buf ∧
        c_char_to_string buf = [104, 105] :=
  ⟨by decide, by decide, c4_string_round_trip [104, 105] (by decide) (by decide)⟩

/-- C5: a null-terminated buffer whose content bytes are not valid UTF-8
decodes to the empty string rather than failing. -/
theorem c5_invalid_utf8_yields_empty (b : List Byte) (hn : 0 ∉ b)
    (hv : validUtf8 b = false) :
    c_char_to_string (b ++ [0]) = [] := by
  simp [c_char_to_string, takeUntilNull_append_nullByte b hn, hv]

/-- Witness for C5 at the buffer `[0xFF, 0xFE, 0xFD, 0x00]` used by the
repository's own test `test_c_char_to_string_invalid_utf8_returns_empty`. -/
theorem c5_invalid_utf8_yields_empty_witness :
    (0 : Byte) ∉ [0xFF, 0xFE, 0xFD] ∧ validUtf8 [0xFF, 0xFE, 0xFD] = false ∧
      c_char_to_string ([0xFF, 0xFE, 0xFD] ++ [0]) = [] :=
  ⟨by decide, by decide,
    c5_invalid_utf8_yields_empty [0xFF, 0xFE, 0xFD] (by decide) (by decide)⟩

/-- C8: `string_to_c_char` aborts (the `unwrap` of `CString::new` panics)
exactly on inputs containing an embedded null byte; on inputs without one it
always returns a buffer. -/
theorem c8_embedded_null_is_fatal (s : List Byte) :
    (string_to_c_char s = none ↔ 0 ∈ s) ∧
      (0 ∉ s → string_to_c_char s = some (s ++ [0])) := by
  constructor
  · constructor
    · intro h
      by_contra hn
      simp [string_to_c_char, hn] at h
    · intro h
      simp [string_to_c_char, h]
  · intro h
    simp [string_to_c_char, h]

/-- `ErrorCode` (src/result.rs): the closed enumeration of error
discriminants crossing the FFI boundary. -/
inductive ErrorCode
  | Other
  | AuthenticationError
  | ValidationError
  | NotFoundError
  | PermissionError
  | TimeoutError
  | NetworkError
  | InvalidArgumentError
  | IoError
deriving DecidableEq, Repr

/-- A raw pointer; `0` is the null pointer. -/
abbrev Ptr := Nat

/-- `ExternError` (src/result.rs): an error code paired with the handle of a
null-terminated message buffer. -/
structure ExternError where
  code : ErrorCode
  message : Ptr
deriving DecidableEq, Repr

/-- `ExternResult` (src/result.rs): the two-field envelope, an opaque
success handle and an `ExternError` handle, null-sentinel discriminated. -/
structure ExternResult where
  ok : Ptr
  err : Ptr
deriving DecidableEq, Repr

/-- The allocator state for the shallow embedding of `Box::into_raw` /
`Box::from_raw` / `CString::into_raw` / `CString::from_raw`.  `α` is the
payload type being boxed; each store maps live addresses to contents.
Addresses are handed out from the counter `next`, always positive, so the
null pointer `0` is never a live allocation. -/
structure Heap (α : Type) where
  next : Nat
  vals : List (Ptr × α)
  strs : List (Ptr × List Byte)
  uuids : List (Ptr × List Byte)
  errs : List (Ptr × ExternError)
  envs : List (Ptr × ExternResult)
deriving Repr

/-- The heap with no live allocations. -/
def emptyHeap (α : Type) : Heap α :=
  { next := 0, vals := [], strs := [], uuids := [], errs := [], envs := [] }

/-- Association-list lookup used by all the stores. -/
def lookupA {β : Type} : List (Ptr × β) → Ptr → Option β
  | [], _ => none
  | (q, v) :: r, p => if q = p then some v else lookupA r p

/-- Remove an address from a store (`Box::from_raw` + drop). -/
def removeA {β : Type} (l : List (Ptr × β)) (p : Ptr) : List (Ptr × β) :=
  l.filter (fun q => q.fst ≠ p)

/-- `Box::into_raw(Box::new v)` for a payload value. -/
def Heap.allocVal {α : Type} (h : Heap α) (v : α) : Heap α × Ptr :=
  ({ h with next := h.next + 1, vals := (h.next + 1, v) :: h.vals }, h.next + 1)

/-- `CString::into_raw` for a marshalled text buffer. -/
def Heap.allocStr {α : Type} (h : Heap α) (b : List Byte) : Heap α × Ptr :=
  ({ h with next := h.next + 1, strs := (h.next + 1, b) :: h.strs }, h.next + 1)

/-- `Box::into_raw(Box::new e)` for an `ExternError` record. -/
def Heap.allocErr {α : Type} (h : Heap α) (e : ExternError) : Heap α × Ptr :=
  ({ h with next := h.next + 1, errs := (h.next + 1, e) :: h.errs }, h.next + 1)

/-- `Box::into_raw(Box::new r)` for an `ExternResult` envelope. -/
def Heap.allocEnv {α : Type} (h : Heap α) (r : ExternResult) : Heap α × Ptr :=
  ({ h with next := h.next + 1, envs := (h.next + 1, r) :: h.envs }, h.next + 1)

/-- Dereference a payload handle. -/
def lookupVal {α : Type} (h : Heap α) (p : Ptr) : Option α := lookupA h.vals p

/-- Dereference a text-buffer handle. -/
def lookupStr {α : Type} (h : Heap α) (p : Ptr) : Option (List Byte) :=
  lookupA h.strs p

/-- Dereference an `ExternError` handle. -/
def lookupErr {α : Type} (h : Heap α) (p : Ptr) : Option ExternError :=
  lookupA h.errs p

/-- Dereference an `ExternResult` envelope handle. -/
def lookupEnv {α : Type} (h : Heap α) (p : Ptr) : Option ExternResult :=
  lookupA h.envs p

/-- Heap-level `string_to_c_char`: marshal the bytes (aborting on an
embedded null byte) and place the buffer in a fresh allocation. -/
def string_to_c_char_alloc {α : Type} (h : Heap α) (s : List Byte) :
    Option (Heap α × Ptr) :=
  match string_to_c_char s with
  | none => none
  | some buf => some (h.allocStr buf)

/-- `ExternResult::ok_ptr` (src/result.rs): adopt an existing handle as the
`ok` field, `err` null, and box the envelope. -/
def externResult_ok_ptr {α : Type} (h : Heap α) (result : Ptr) :
    Heap α × Ptr :=
  h.allocEnv { ok := result, err := 0 }

/-- `ExternResult::ok` (src/result.rs): box the value, then `ok_ptr`. -/
def externResult_ok {α : Type} (h : Heap α) (result : α) : Heap α × Ptr :=
  let hv := h.allocVal result
  externResult_ok_ptr hv.1 hv.2

/-- `ExternResult::ok_null` (src/result.rs): both fields null. -/
def externResult_ok_null {α : Type} (h : Heap α) : Heap α × Ptr :=
  h.allocEnv { ok := 0, err := 0 }

/-- A value held by a payload box allocated through `ExternResult::ok<U>`,
for the two instantiations of `U` occurring in src/result.rs: an owned `T`
moved into the box (`val`), or a `&T` borrow (`ref`) — `ok_optional`
matches on its `&Option<T>` argument, so its `Some` arm binds `t : &T` and
`Self::ok(t)` boxes that reference, not the value.  `ref v` records the
borrow's pointee `v`; the borrow's address itself is immaterial to the
claims, the indirection tag is what distinguishes the allocation. -/
inductive RustValue (α : Type)
  | val (v : α)
  | ref (v : α)
deriving DecidableEq, Repr

/-- Reading a payload box to a `T`: an owned value directly, a borrowed
reference through one more dereference (yielding the borrow's pointee). -/
def RustValue.deref {α : Type} : RustValue α → α
  | RustValue.val v => v
  | RustValue.ref v => v

/-- `ExternResult::ok_optional` (src/result.rs): the match on the
`&Option<T>` argument binds `t : &T` in the `Some(t)` arm and calls
`Self::ok(t)` — instantiating `ok` at `&T` and boxing the reference to the
caller's value; the `None` arm calls `ok_null`. -/
def externResult_ok_optional {α : Type} (h : Heap (RustValue α))
    (result : Option α) : Heap (RustValue α) × Ptr :=
  match result with
  | some t => externResult_ok h (RustValue.ref t)
  | none => externResult_ok_null h

/-- `ExternResult::err` (src/result.rs): marshal the message (fatal on an
embedded null byte), box the `ExternError { code, message }`, then box the
envelope with `ok` null and `err` pointing at the error record. -/
def externResult_err {α : Type} (h : Heap α) (code : ErrorCode)
    (msg : List Byte) : Option (Heap α × Ptr) :=
  match string_to_c_char_alloc h msg with
  | none => none
  | some (h1, pm) =>
    let he := h1.allocErr { code := code, message := pm }
    some (he.1.allocEnv { ok := 0, err := he.2 })

/-- `impl From<Result<T, E>> for ExternResult` (src/result.rs): `Ok(value)`
boxes the value into the `ok` field with `err` null; `Err(e)` marshals
`e.to_string()` (the display text, abstracted as the function `display`),
boxes an `ExternError` with code `Other`, and fills `err`.  The envelope is
returned by value, not boxed. -/
def externResult_from {α ε : Type} (display : ε → List Byte) (h : Heap α) :
    Except ε α → Option (Heap α × ExternResult)
  | Except.ok value =>
    let hv := h.allocVal value
    some (hv.1, { ok := hv.2, err := 0 })
  | Except.error e =>
    match string_to_c_char_alloc h (display e) with
    | none => none
    | some (h1, pm) =>
      let he := h1.allocErr { code := ErrorCode.Other, message := pm }
      some (he.1, { ok := 0, err := he.2 })

/-- `destroy` (src/memory.rs, from `define_destructor!(destroy, c_void)`):
`Box::from_raw(obj)` with no null check.  `Box::from_raw` requires a
non-null pointer previously returned by `Box::into_raw`; on any other
handle — the null pointer included — the behavior is undefined, modelled by
`none`. -/
def destroy {α : Type} (h : Heap α) (p : Ptr) : Option (Heap α) :=
  match lookupA h.vals p with
  | some _ => some { h with vals := removeA h.vals p }
  | none => none

/-- `destroy_raw_uuid` (src/memory.rs): `Box::from_raw` on a `[u8; 16]`
handle, no null check; undefined behavior (`none`) off the live store. -/
def destroy_raw_uuid {α : Type} (h : Heap α) (p : Ptr) : Option (Heap α) :=
  match lookupA h.uuids p with
  | some _ => some { h with uuids := removeA h.uuids p }
  | none => none

/-- `destroy_c_char` (src/memory.rs): `CString::from_raw(s)` with no null
check; undefined behavior (`none`) unless `s` is a live buffer produced by
`CString::into_raw`. -/
def destroy_c_char {α : Type} (h : Heap α) (p : Ptr) : Option (Heap α) :=
  match lookupA h.strs p with
  | some _ => some { h with strs := removeA h.strs p }
  | none => none

/-- `extern_result_destroy` (src/result.rs, generated by
`define_destructor!(extern_result_destroy, ExternResult)`):
`Box::from_raw(obj)` on an `ExternResult` handle, no null check. -/
def extern_result_destroy {α : Type} (h : Heap α) (p : Ptr) :
    Option (Heap α) :=
  match lookupA h.envs p with
  | some _ => some { h with envs := removeA h.envs p }
  | none => none

/-- A heap is well formed when no live address is the null pointer; every
heap reachable from `emptyHeap` through the constructors is (allocation
hands out `next + 1 ≥ 1`). -/
def Heap.wf {α : Type} (h : Heap α) : Bool :=
  h.vals.all (fun q => q.fst ≠ 0) && h.strs.all (fun q => q.fst ≠ 0) &&
    h.uuids.all (fun q => q.fst ≠ 0) && h.errs.all (fun q => q.fst ≠ 0) &&
    h.envs.all (fun q => q.fst ≠ 0)

/-- The state invariant of a constructed envelope: a non-null `err` forces
a null `ok`, and the fields are in one of the three states success-with-
value, failure, or ok-with-no-value (never both non-null). -/
def envInvariant (r : ExternResult) : Prop :=
  (r.err ≠ 0 → r.ok = 0) ∧
    ((r.ok ≠ 0 ∧ r.err = 0) ∨ (r.ok = 0 ∧ r.err ≠ 0) ∨
      (r.ok = 0 ∧ r.err = 0))

/-- C2: every envelope produced by `ok`, `ok_ptr`, `ok_null`, `ok_optional`,
`err`, and the `From<Result<T, E>>` adapter satisfies the state invariant:
non-null `err` implies null `ok`, and the fields are in exactly one of the
states success-with-value / failure / ok-with-no-value (both null). -/
theorem c2_constructor_invariant {α ε : Type} (dsp : ε → List Byte)
    (h : Heap α) (v : α) (p : Ptr) (o : Option α)
    (h2 : Heap (RustValue α)) (k : ErrorCode)
    (m : List Byte) (e : ε) (hm : 0 ∉ m) (he : 0 ∉ dsp e) :
    (∃ r, lookupEnv (externResult_ok h v).1 (externResult_ok h v).2 = some r ∧
      envInvariant r) ∧
    (∃ r, lookupEnv (externResult_ok_ptr h p).1 (externResult_ok_ptr h p).2 =
      some r ∧ envInvariant r) ∧
    (∃ r, lookupEnv (externResult_ok_null h).1 (externResult_ok_null h).2 =
      some r ∧ envInvariant r) ∧
    (∃ r, lookupEnv (externResult_ok_optional h2 o).1
      (externResult_ok_optional h2 o).2 = some r ∧ envInvariant r) ∧
    (∃ hp, externResult_err h k m = some hp ∧
      ∃ r, lookupEnv hp.1 hp.2 = some r ∧ envInvariant r) ∧
    (∃ hr, externResult_from dsp h (Except.ok v) = some hr ∧
      envInvariant hr.2) ∧
    (∃ hr, externResult_from dsp h (Except.error e) = some hr ∧
      envInvariant hr.2) := by
  have hinv_ok : ∀ q : Ptr, envInvariant ⟨q, 0⟩ := by
    intro q
    constructor
    · intro hcon
      exact absurd rfl hcon
    · rcases eq_or_ne q 0 with hq | hq
      · exact Or.inr (Or.inr ⟨hq, rfl⟩)
      · exact Or.inl ⟨hq, rfl⟩
  have hinv_err : ∀ q : Ptr, q ≠ 0 → envInvariant ⟨0, q⟩ := by
    intro q hq
    exact ⟨fun _ => rfl, Or.inr (Or.inl ⟨rfl, hq⟩)⟩
  refine ⟨?_, ?_, ?_, ?_, ?_, ?_, ?_⟩
  · refine ⟨⟨h.next + 1, 0⟩, ?_, hinv_ok _⟩
    simp [externResult_ok, externResult_ok_ptr, Heap.allocVal, Heap.allocEnv,
      lookupEnv, lookupA]
  · refine ⟨⟨p, 0⟩, ?_, hinv_ok _⟩
    simp [externResult_ok_ptr, Heap.allocEnv, lookupEnv, lookupA]
  · refine ⟨⟨0, 0⟩, ?_, hinv_ok _⟩
    simp [externResult_ok_null, Heap.allocEnv, lookupEnv, lookupA]
  · cases o with
    | some t =>
      refine ⟨⟨h2.next + 1, 0⟩, ?_, hinv_ok _⟩
      simp [externResult_ok_optional, externResult_ok, externResult_ok_ptr,
        Heap.allocVal, Heap.allocEnv, lookupEnv, lookupA]
    | none =>
      refine ⟨⟨0, 0⟩, ?_, hinv_ok _⟩
      simp [externResult_ok_optional, externResult_ok_null, Heap.allocEnv,
        lookupEnv, lookupA]
  · refine ⟨(⟨h.next + 3, h.vals, (h.next + 1, m ++ [0]) :: h.strs, h.uuids,
      (h.next + 2, ⟨k, h.next + 1⟩) :: h.errs,
      (h.next + 3, ⟨0, h.next + 2⟩) :: h.envs⟩, h.next + 3),
      ?_, ⟨0, h.next + 2⟩, ?_, hinv_err (h.next + 2) (Nat.succ_ne_zero (h.next + 1))⟩
    · simp [externResult_err, string_to_c_char_alloc, string_to_c_char, hm,
        Heap.allocStr, Heap.allocErr, Heap.allocEnv]
    · simp [lookupEnv, lookupA]
  · refine ⟨(⟨h.next + 1, (h.next + 1, v) :: h.vals,
      h.strs, h.uuids, h.errs, h.envs⟩,
      ⟨h.next + 1, 0⟩), ?_, hinv_ok _⟩
    simp [externResult_from, Heap.allocVal]
  · refine ⟨(⟨h.next + 2, h.vals, (h.next + 1, dsp e ++ [0]) :: h.strs,
      h.uuids, (h.next + 2, ⟨ErrorCode.Other, h.next + 1⟩) :: h.errs,
      h.envs⟩, ⟨0, h.next + 2⟩), ?_, hinv_err (h.next + 2) (Nat.succ_ne_zero (h.next + 1))⟩
    simp [externResult_from, string_to_c_char_alloc, string_to_c_char, he,
      Heap.allocStr, Heap.allocErr]

/-- Witness for C2 with the empty heap, payload `5`, adopted handle `7`,
option `some 3`, error kind `Other`, and the message "boom". -/
theorem c2_constructor_invariant_witness :
    (0 : Byte) ∉ [98, 111, 111, 109] ∧ (0 : Byte) ∉ id [98, 111, 111, 109] ∧
    ((∃ r, lookupEnv (externResult_ok (emptyHeap Nat) 5).1
        (externResult_ok (emptyHeap Nat) 5).2 = some r ∧ envInvariant r) ∧
      (∃ r, lookupEnv (externResult_ok_ptr (emptyHeap Nat) 7).1
        (externResult_ok_ptr (emptyHeap Nat) 7).2 = some r ∧ envInvariant r) ∧
      (∃ r, lookupEnv (externResult_ok_null (emptyHeap Nat)).1
        (externResult_ok_null (emptyHeap Nat)).2 = some r ∧ envInvariant r) ∧
      (∃ r, lookupEnv
        (externResult_ok_optional (emptyHeap (RustValue Nat)) (some 3)).1
        (externResult_ok_optional (emptyHeap (RustValue Nat)) (some 3)).2 =
        some r ∧ envInvariant r) ∧
      (∃ hp, externResult_err (emptyHeap Nat) ErrorCode.Other
          [98, 111, 111, 109] = some hp ∧
        ∃ r, lookupEnv hp.1 hp.2 = some r ∧ envInvariant r) ∧
      (∃ hr, externResult_from id (emptyHeap Nat)
          (Except.ok 5) = some hr ∧ envInvariant hr.2) ∧
      (∃ hr, externResult_from id (emptyHeap Nat)
          (Except.error [98, 111, 111, 109]) = some hr ∧ envInvariant hr.2)) :=
  ⟨by decide, by decide,
    c2_constructor_invariant id (emptyHeap Nat) 5 7 (some 3)
      (emptyHeap (RustValue Nat)) ErrorCode.Other
      [98, 111, 111, 109] [98, 111, 111, 109] (by decide) (by decide)⟩

/-- C3: `err k m` (for `m` valid UTF-8 without embedded nulls) returns an
envelope with null `ok` and non-null `err`, and the pointed-to error record
carries discriminant `k` and a message buffer decoding back to `m`. -/
theorem c3_err_shape {α : Type} (h : Heap α) (k : ErrorCode) (m : List Byte)
    (hm : 0 ∉ m) (hv : validUtf8 m = true) :
    ∃ h2, externResult_err h k m = some (h2, h.next + 3) ∧
      lookupEnv h2 (h.next + 3) = some ⟨0, h.next + 2⟩ ∧
      h.next + 2 ≠ 0 ∧
      lookupErr h2 (h.next + 2) = some ⟨k, h.next + 1⟩ ∧
      lookupStr h2 (h.next + 1) = some (m ++ [0]) ∧
      c_char_to_string (m ++ [0]) = m := by
  refine ⟨⟨h.next + 3, h.vals, (h.next + 1, m ++ [0]) :: h.strs, h.uuids,
    (h.next + 2, ⟨k, h.next + 1⟩) :: h.errs,
    (h.next + 3, ⟨0, h.next + 2⟩) :: h.envs⟩,
    ?_, ?_, by omega, ?_, ?_, ?_⟩
  · simp [externResult_err, string_to_c_char_alloc, string_to_c_char, hm,
      Heap.allocStr, Heap.allocErr, Heap.allocEnv]
  · simp [lookupEnv, lookupA]
  · simp [lookupErr, lookupA]
  · simp [lookupStr, lookupA]
  · simp [c_char_to_string, takeUntilNull_append_nullByte m hm, hv]

/-- Witness for C3 at the empty heap, kind `ValidationError`, and the
message "hi" (bytes `[104, 105]`). -/
theorem c3_err_shape_witness :
    (0 : Byte) ∉ [104, 105] ∧ validUtf8 [104, 105] = true ∧
      ∃ h2, externResult_err (emptyHeap Nat) ErrorCode.ValidationError
          [104, 105] = some (h2, (emptyHeap Nat).next + 3) ∧
        lookupEnv h2 ((emptyHeap Nat).next + 3) =
          some ⟨0, (emptyHeap Nat).next + 2⟩ ∧
        (emptyHeap Nat).next + 2 ≠ 0 ∧
        lookupErr h2 ((emptyHeap Nat).next + 2) =
          some ⟨ErrorCode.ValidationError, (emptyHeap Nat).next + 1⟩ ∧
        lookupStr h2 ((emptyHeap Nat).next + 1) = some ([104, 105] ++ [0]) ∧
        c_char_to_string ([104, 105] ++ [0]) = [104, 105] :=
  ⟨by decide, by decide,
    c3_err_shape (emptyHeap Nat) ErrorCode.ValidationError [104, 105]
      (by decide) (by decide)⟩

/-- C6 counterexample: at the concrete input `Some 5`, `ok_optional` does
not behave identically to `ok(5)`.  `ok_optional` matches on `&Option<T>`,
so its `Some` arm binds a reference `t : &T` and `Self::ok(t)` boxes that
reference: the payload box of `ok_optional(&Some(5))` holds
`RustValue.ref 5` (a `Box<&T>` holding the address of the caller's value),
while `ok(5)` with the owned value boxes `RustValue.val 5` — the payload
reachable through the two handles differs, as does the allocation's true
type (so a different type-specific release applies). -/
theorem c6_counterexample :
    lookupVal (externResult_ok_optional (emptyHeap (RustValue Nat))
      (some 5)).1 1 = some (RustValue.ref 5) ∧
    lookupVal (externResult_ok (emptyHeap (RustValue Nat))
      (RustValue.val 5)).1 1 = some (RustValue.val 5) ∧
    (RustValue.ref 5 : RustValue Nat) ≠ RustValue.val 5 ∧
    lookupVal (externResult_ok_optional (emptyHeap (RustValue Nat))
      (some 5)).1 1 ≠
      lookupVal (externResult_ok (emptyHeap (RustValue Nat))
        (RustValue.val 5)).1 1 := by
  refine ⟨rfl, rfl, by decide, by decide⟩

/-- C6 (amended): `ok_optional` on `Some v` dispatches to `ok` applied to
the borrowed reference, not to the value: the envelope field states match
those of `ok(v)` (non-null payload handle `next + 1`, null error), and `v`
stays reachable through the payload handle by dereferencing the stored
`&T` reference, but the payload box holds that reference rather than an
owned copy of `v`; `ok_optional` on `None` behaves identically to
`ok_null`. -/
theorem c6_ok_optional_boxes_reference {α : Type} (h : Heap (RustValue α))
    (v : α) :
    externResult_ok_optional h (some v) =
      externResult_ok h (RustValue.ref v) ∧
    externResult_ok_optional (α := α) h none = externResult_ok_null h ∧
    lookupEnv (externResult_ok_optional h (some v)).1
      (externResult_ok_optional h (some v)).2 = some ⟨h.next + 1, 0⟩ ∧
    lookupVal (externResult_ok_optional h (some v)).1 (h.next + 1) =
      some (RustValue.ref v) ∧
    (lookupVal (externResult_ok_optional h (some v)).1
      (h.next + 1)).map RustValue.deref = some v ∧
    lookupEnv (externResult_ok h (RustValue.val v)).1
      (externResult_ok h (RustValue.val v)).2 = some ⟨h.next + 1, 0⟩ ∧
    lookupEnv (externResult_ok_optional (α := α) h none).1
      (externResult_ok_optional (α := α) h none).2 = some ⟨0, 0⟩ := by
  refine ⟨rfl, rfl, ?_, ?_, ?_, ?_, ?_⟩
  · simp [externResult_ok_optional, externResult_ok, externResult_ok_ptr,
      Heap.allocVal, Heap.allocEnv, lookupEnv, lookupA]
  · simp [externResult_ok_optional, externResult_ok, externResult_ok_ptr,
      Heap.allocVal, Heap.allocEnv, lookupVal, lookupA]
  · simp [externResult_ok_optional, externResult_ok, externResult_ok_ptr,
      Heap.allocVal, Heap.allocEnv, lookupVal, lookupA, RustValue.deref]
  · simp [externResult_ok, externResult_ok_ptr, Heap.allocVal,
      Heap.allocEnv, lookupEnv, lookupA]
  · simp [externResult_ok_optional, externResult_ok_null, Heap.allocEnv,
      lookupEnv, lookupA]

/-- C7: the `From<Result<T, E>>` adapter maps `Ok(v)` to an envelope
equivalent to `ok v` (non-null `ok` holding `v`, null `err`) and `Err(e)`
to an envelope equivalent to `err Other (display e)`: null `ok`, non-null
`err`, error record with kind `Other` and a message buffer that decodes
back to the display text. -/
theorem c7_from_adapter {α ε : Type} (dsp : ε → List Byte) (h : Heap α)
    (v : α) (e : ε) (hn : 0 ∉ dsp e) (hv : validUtf8 (dsp e) = true) :
    (∃ h1, externResult_from dsp h (Except.ok v) =
        some (h1, ⟨h.next + 1, 0⟩) ∧
      lookupVal h1 (h.next + 1) = some v ∧
      lookupEnv (externResult_ok h v).1 (externResult_ok h v).2 =
        some ⟨h.next + 1, 0⟩ ∧
      lookupVal (externResult_ok h v).1 (h.next + 1) = some v) ∧
    (∃ h2, externResult_from dsp h (Except.error e) =
        some (h2, ⟨0, h.next + 2⟩) ∧
      lookupErr h2 (h.next + 2) = some ⟨ErrorCode.Other, h.next + 1⟩ ∧
      lookupStr h2 (h.next + 1) = some (dsp e ++ [0]) ∧
      c_char_to_string (dsp e ++ [0]) = dsp e ∧
      ∃ h3, externResult_err h ErrorCode.Other (dsp e) =
          some (h3, h.next + 3) ∧
        lookupEnv h3 (h.next + 3) = some ⟨0, h.next + 2⟩ ∧
        lookupErr h3 (h.next + 2) = some ⟨ErrorCode.Other, h.next + 1⟩ ∧
        lookupStr h3 (h.next + 1) = some (dsp e ++ [0])) := by
  constructor
  · refine ⟨⟨h.next + 1, (h.next + 1, v) :: h.vals, h.strs, h.uuids,
      h.errs, h.envs⟩, ?_, ?_, ?_, ?_⟩
    · simp [externResult_from, Heap.allocVal]
    · simp [lookupVal, lookupA]
    · simp [externResult_ok, externResult_ok_ptr, Heap.allocVal,
        Heap.allocEnv, lookupEnv, lookupA]
    · simp [externResult_ok, externResult_ok_ptr, Heap.allocVal,
        Heap.allocEnv, lookupVal, lookupA]
  · refine ⟨⟨h.next + 2, h.vals, (h.next + 1, dsp e ++ [0]) :: h.strs,
      h.uuids, (h.next + 2, ⟨ErrorCode.Other, h.next + 1⟩) :: h.errs,
      h.envs⟩, ?_, ?_, ?_, ?_, ?_⟩
    · simp [externResult_from, string_to_c_char_alloc, string_to_c_char, hn,
        Heap.allocStr, Heap.allocErr]
    · simp [lookupErr, lookupA]
    · simp [lookupStr, lookupA]
    · simp [c_char_to_string, takeUntilNull_append_nullByte (dsp e) hn, hv]
    · refine ⟨⟨h.next + 3, h.vals, (h.next + 1, dsp e ++ [0]) :: h.strs,
        h.uuids, (h.next + 2, ⟨ErrorCode.Other, h.next + 1⟩) :: h.errs,
        (h.next + 3, ⟨0, h.next + 2⟩) :: h.envs⟩, ?_, ?_, ?_, ?_⟩
      · simp [externResult_err, string_to_c_char_alloc, string_to_c_char, hn,
          Heap.allocStr, Heap.allocErr, Heap.allocEnv]
      · simp [lookupEnv, lookupA]
      · simp [lookupErr, lookupA]
      · simp [lookupStr, lookupA]

/-- Witness for C7 with `display = id`, the error display text "boom"
(bytes `[98, 111, 111, 109]`), payload `42`, and the empty heap. -/
theorem c7_from_adapter_witness :
    (0 : Byte) ∉ id [98, 111, 111, 109] ∧
    validUtf8 (id [98, 111, 111, 109]) = true ∧
    ((∃ h1, externResult_from id (emptyHeap Nat) (Except.ok 42) =
        some (h1, ⟨(emptyHeap Nat).next + 1, 0⟩) ∧
      lookupVal h1 ((emptyHeap Nat).next + 1) = some 42 ∧
      lookupEnv (externResult_ok (emptyHeap Nat) 42).1
        (externResult_ok (emptyHeap Nat) 42).2 =
        some ⟨(emptyHeap Nat).next + 1, 0⟩ ∧
      lookupVal (externResult_ok (emptyHeap Nat) 42).1
        ((emptyHeap Nat).next + 1) = some 42) ∧
    (∃ h2, externResult_from id (emptyHeap Nat)
        (Except.error [98, 111, 111, 109]) =
        some (h2, ⟨0, (emptyHeap Nat).next + 2⟩) ∧
      lookupErr h2 ((emptyHeap Nat).next + 2) =
        some ⟨ErrorCode.Other, (emptyHeap Nat).next + 1⟩ ∧
      lookupStr h2 ((emptyHeap Nat).next + 1) =
        some (id [98, 111, 111, 109] ++ [0]) ∧
      c_char_to_string (id [98, 111, 111, 109] ++ [0]) =
        id [98, 111, 111, 109] ∧
      ∃ h3, externResult_err (emptyHeap Nat) ErrorCode.Other
          (id [98, 111, 111, 109]) = some (h3, (emptyHeap Nat).next + 3) ∧
        lookupEnv h3 ((emptyHeap Nat).next + 3) =
          some ⟨0, (emptyHeap Nat).next + 2⟩ ∧
        lookupErr h3 ((emptyHeap Nat).next + 2) =
          some ⟨ErrorCode.Other, (emptyHeap Nat).next + 1⟩ ∧
        lookupStr h3 ((emptyHeap Nat).next + 1) =
          some (id [98, 111, 111, 109] ++ [0]))) :=
  ⟨by decide, by decide,
    c7_from_adapter id (emptyHeap Nat) 42 [98, 111, 111, 109]
      (by decide) (by decide)⟩

/-- C10: every pointer-returning envelope constructor returns a non-null
envelope handle that dereferences to the two envelope fields (for `err`,
whenever the construction returns at all, i.e. the message has no embedded
null byte). -/
theorem c10_constructors_nonnull {α : Type} (h : Heap α) (v : α) (p : Ptr)
    (o : Option α) (h2 : Heap (RustValue α)) (k : ErrorCode)
    (m : List Byte) (hm : 0 ∉ m) :
    ((externResult_ok h v).2 ≠ 0 ∧
      ∃ r, lookupEnv (externResult_ok h v).1 (externResult_ok h v).2 =
        some r) ∧
    ((externResult_ok_ptr h p).2 ≠ 0 ∧
      ∃ r, lookupEnv (externResult_ok_ptr h p).1
        (externResult_ok_ptr h p).2 = some r) ∧
    ((externResult_ok_null h).2 ≠ 0 ∧
      ∃ r, lookupEnv (externResult_ok_null h).1
        (externResult_ok_null h).2 = some r) ∧
    ((externResult_ok_optional h2 o).2 ≠ 0 ∧
      ∃ r, lookupEnv (externResult_ok_optional h2 o).1
        (externResult_ok_optional h2 o).2 = some r) ∧
    (∃ hp2, externResult_err h k m = some hp2 ∧ hp2.2 ≠ 0 ∧
      ∃ r, lookupEnv hp2.1 hp2.2 = some r) := by
  refine ⟨⟨?_, ⟨h.next + 1, 0⟩, ?_⟩, ⟨?_, ⟨p, 0⟩, ?_⟩, ⟨?_, ⟨0, 0⟩, ?_⟩,
    ?_, ?_⟩
  · simp [externResult_ok, externResult_ok_ptr, Heap.allocVal, Heap.allocEnv]
  · simp [externResult_ok, externResult_ok_ptr, Heap.allocVal, Heap.allocEnv,
      lookupEnv, lookupA]
  · simp [externResult_ok_ptr, Heap.allocEnv]
  · simp [externResult_ok_ptr, Heap.allocEnv, lookupEnv, lookupA]
  · simp [externResult_ok_null, Heap.allocEnv]
  · simp [externResult_ok_null, Heap.allocEnv, lookupEnv, lookupA]
  · cases o with
    | some t =>
      refine ⟨?_, ⟨h2.next + 1, 0⟩, ?_⟩
      · simp [externResult_ok_optional, externResult_ok, externResult_ok_ptr,
          Heap.allocVal, Heap.allocEnv]
      · simp [externResult_ok_optional, externResult_ok, externResult_ok_ptr,
          Heap.allocVal, Heap.allocEnv, lookupEnv, lookupA]
    | none =>
      refine ⟨?_, ⟨0, 0⟩, ?_⟩
      · simp [externResult_ok_null, externResult_ok_optional, Heap.allocEnv]
      · simp [externResult_ok_null, externResult_ok_optional, Heap.allocEnv,
          lookupEnv, lookupA]
  · refine ⟨(⟨h.next + 3, h.vals, (h.next + 1, m ++ [0]) :: h.strs, h.uuids,
      (h.next + 2, ⟨k, h.next + 1⟩) :: h.errs,
      (h.next + 3, ⟨0, h.next + 2⟩) :: h.envs⟩, h.next + 3),
      ?_, ?_, ⟨0, h.next + 2⟩, ?_⟩
    · simp [externResult_err, string_to_c_char_alloc, string_to_c_char, hm,
        Heap.allocStr, Heap.allocErr, Heap.allocEnv]
    · simp
    · simp [lookupEnv, lookupA]

/-- Witness for C10 at the empty heap, payload `5`, adopted handle `7`,
option `some 3`, kind `Other`, and the message "hi". -/
theorem c10_constructors_nonnull_witness :
    (0 : Byte) ∉ [104, 105] ∧
    (((externResult_ok (emptyHeap Nat) 5).2 ≠ 0 ∧
      ∃ r, lookupEnv (externResult_ok (emptyHeap Nat) 5).1
        (externResult_ok (emptyHeap Nat) 5).2 = some r) ∧
    ((externResult_ok_ptr (emptyHeap Nat) 7).2 ≠ 0 ∧
      ∃ r, lookupEnv (externResult_ok_ptr (emptyHeap Nat) 7).1
        (externResult_ok_ptr (emptyHeap Nat) 7).2 = some r) ∧
    ((externResult_ok_null (emptyHeap Nat)).2 ≠ 0 ∧
      ∃ r, lookupEnv (externResult_ok_null (emptyHeap Nat)).1
        (externResult_ok_null (emptyHeap Nat)).2 = some r) ∧
    ((externResult_ok_optional (emptyHeap (RustValue Nat)) (some 3)).2 ≠ 0 ∧
      ∃ r, lookupEnv
        (externResult_ok_optional (emptyHeap (RustValue Nat)) (some 3)).1
        (externResult_ok_optional (emptyHeap (RustValue Nat)) (some 3)).2 =
        some r) ∧
    (∃ hp2, externResult_err (emptyHeap Nat) ErrorCode.Other [104, 105] =
        some hp2 ∧ hp2.2 ≠ 0 ∧ ∃ r, lookupEnv hp2.1 hp2.2 = some r)) :=
  ⟨by decide,
    c10_constructors_nonnull (emptyHeap Nat) 5 7 (some 3)
      (emptyHeap (RustValue Nat)) ErrorCode.Other [104, 105] (by decide)⟩

/-- Association-list lookup misses every address that no entry carries. -/
theorem lookupA_eq_none_of_forall {β : Type} (l : List (Ptr × β)) (p : Ptr)
    (hl : ∀ q ∈ l, q.fst ≠ p) : lookupA l p = none := by
  induction l with
  | nil => rfl
  | cons a t ih =>
    have ha : a.fst ≠ p := hl a (List.mem_cons_self a t)
    have ht : ∀ q ∈ t, q.fst ≠ p := fun q hq => hl q (List.mem_cons_of_mem a hq)
    simp [lookupA, ha, ih ht]

/-- C1 counterexample: releasing the null handle is not a no-op for any of
the four release primitives.  Each destructor passes the handle straight to
`Box::from_raw` / `CString::from_raw`, whose contract demands a non-null
pointer previously produced by the matching `into_raw`; on the null handle
the result is undefined behavior (`none`), not an unchanged heap. -/
theorem c1_counterexample :
    destroy (emptyHeap Nat) 0 ≠ some (emptyHeap Nat) ∧
    destroy (emptyHeap Nat) 0 = none ∧
    destroy_raw_uuid (emptyHeap Nat) 0 = none ∧
    destroy_c_char (emptyHeap Nat) 0 = none ∧
    extern_result_destroy (emptyHeap Nat) 0 = none := by
  refine ⟨?_, rfl, rfl, rfl, rfl⟩
  simp [destroy, emptyHeap, lookupA]

/-- C1 (amended): on every well-formed heap (one whose live addresses are
all non-null, as holds for every heap the constructors produce), calling
any of the four release primitives on the null handle is undefined
behavior — the generated destructors contain no null check. -/
theorem c1_null_release_is_ub {α : Type} (h : Heap α) (hw : h.wf = true) :
    destroy h 0 = none ∧ destroy_raw_uuid h 0 = none ∧
    destroy_c_char h 0 = none ∧ extern_result_destroy h 0 = none := by
  simp only [Heap.wf, Bool.and_eq_true, List.all_eq_true, decide_eq_true_eq]
    at hw
  obtain ⟨⟨⟨⟨h1, h2⟩, h3⟩, h4⟩, h5⟩ := hw
  refine ⟨?_, ?_, ?_, ?_⟩
  · simp [destroy, lookupA_eq_none_of_forall h.vals 0 h1]
  · simp [destroy_raw_uuid, lookupA_eq_none_of_forall h.uuids 0 h3]
  · simp [destroy_c_char, lookupA_eq_none_of_forall h.strs 0 h2]
  · simp [extern_result_destroy, lookupA_eq_none_of_forall h.envs 0 h5]

/-- Witness for the amended C1 at the empty heap. -/
theorem c1_null_release_is_ub_witness :
    (emptyHeap Nat).wf = true ∧
    (destroy (emptyHeap Nat) 0 = none ∧
      destroy_raw_uuid (emptyHeap Nat) 0 = none ∧
      destroy_c_char (emptyHeap Nat) 0 = none ∧
      extern_result_destroy (emptyHeap Nat) 0 = none) :=
  ⟨by decide, c1_null_release_is_ub (emptyHeap Nat) (by decide)⟩

/-- The four `extern "C"` release functions the repository defines:
`destroy` (from `define_destructor!(destroy, c_void)`), `destroy_raw_uuid`,
`destroy_c_char` (src/memory.rs), and `extern_result_destroy` (from
`define_destructor!(extern_result_destroy, ExternResult)`, src/result.rs). -/
inductive FfiDestructor
  | destroyOpaque
  | destroyRawUuid
  | destroyCChar
  | externResultDestroy
deriving DecidableEq, Repr

/-- The pointee types of the handles appearing at the boundary: `c_void`,
`[u8; 16]`, `c_char`, `ExternResult`, and `ExternError`. -/
inductive HandleType
  | cVoid
  | rawUuid16
  | cChar
  | externResultT
  | externErrorT
deriving DecidableEq, Repr

/-- The argument type of each release function, read off its signature in
the source: `destroy(obj: *mut c_void)`, `destroy_raw_uuid(obj: *mut
[u8; 16])`, `destroy_c_char(s: *mut c_char)`,
`extern_result_destroy(obj: *mut ExternResult)`. -/
def destructorArg : FfiDestructor → HandleType
  | FfiDestructor.destroyOpaque => HandleType.cVoid
  | FfiDestructor.destroyRawUuid => HandleType.rawUuid16
  | FfiDestructor.destroyCChar => HandleType.cChar
  | FfiDestructor.externResultDestroy => HandleType.externResultT

/-- C9 fails on the code: the failure constructor allocates an
`ExternError` record (here at address 2 of the fresh heap), yet no release
function takes a `*mut ExternError` handle — the `free_extern_error`
destructor promised by the doc comment in src/result.rs does not exist.
The other protocol-allocated types do have their primitives. -/
theorem c9_no_error_record_release :
    (∀ d : FfiDestructor, destructorArg d ≠ HandleType.externErrorT) ∧
    (externResult_err (emptyHeap Nat) ErrorCode.Other [104]).map
      (fun hp => lookupErr hp.1 2) =
      some (some ⟨ErrorCode.Other, 1⟩) ∧
    destructorArg FfiDestructor.externResultDestroy =
      HandleType.externResultT ∧
    destructorArg FfiDestructor.destroyRawUuid = HandleType.rawUuid16 ∧
    destructorArg FfiDestructor.destroyCChar = HandleType.cChar := by
  refine ⟨fun d => ?_, rfl, rfl, rfl, rfl⟩
  cases d <;> simp [destructorArg]


/-- Witness for C8 at the message `[104, 0, 105]`, which embeds a null. -/
theorem c8_embedded_null_is_fatal_witness :
    (string_to_c_char [104, 0, 105] = none ↔ (0 : Byte) ∈ [104, 0, 105]) ∧
      ((0 : Byte) ∉ [104, 0, 105] →
        string_to_c_char [104, 0, 105] = some ([104, 0, 105] ++ [0])) :=
  c8_embedded_null_is_fatal [104, 0, 105]
